import Mathlib

/-!
Shallow embedding of the rekordbox-file-conversion repository
(converter.py, song.py, format_for_rekordbox.py).

Python strings are modelled as Lean `String` where only equality matters,
and as `List Char` (`Str`) in the file-discovery component, where
suffix/prefix reasoning on paths is needed.  Python floats holding decibel
readings are modelled as `ℚ`: every concrete value the program compares or
subtracts (-0.5, parsed one-decimal ffmpeg readings) is a dyadic rational
on which double-precision subtraction is exact.  Python `None`-able fields
become `Option`; dictionary lookups that can raise `KeyError` and `int(...)`
parses that can raise `ValueError` are modelled with `Except PyErr`.
-/

namespace Rekordbox

/-- Python exceptions that the modelled fragments can raise. -/
inductive PyErr where
  | keyError (key : String)
  | valueError (s : String)
deriving DecidableEq, Repr

/-! ## Constants of converter.py -/

def LOSSLESS_FORMATS : List String := ["aiff", "flac", "wav"]

def LOSSY_FORMATS : List String := ["mp3", "ogg", "aac"]

/-- converter.py: PEAK_DB = -0.5 -/
def PEAK_DB : ℚ := -0.5

def SUPPORTED_FORMATS : List String := LOSSLESS_FORMATS ++ LOSSY_FORMATS

/-! ## song.py: the Song descriptor -/

/-- The fields of song.py's `Song` that the program reads.  `input_stream`
(the lazy ffmpeg pipeline handle) carries no decidable content and is not
represented; `volume_mean`/`volume_max` are the entries of the `self.volume`
dictionary, `none` when the volumedetect output lacked the line. -/
structure Song where
  song_name : String
  codec : String
  format : String
  sample_rate : ℤ
  bit_depth : Option ℤ
  bit_rate : Option ℤ
  tags : List (String × String)
  volume_mean : Option ℚ
  volume_max : Option ℚ
deriving DecidableEq, Repr

/-- The part of `ffmpeg.probe(path)` that `Song.__init__` reads:
`streams[0]` fields and the `format` section.  Fields the code indexes only
conditionally, or that ffprobe may omit (`sample_fmt`, `bit_rate`, `tags`),
are `Option`; indexing an absent one raises `KeyError`. -/
structure ProbeResult where
  codec_name : String
  sample_rate : ℤ
  sample_fmt : Option String
  bit_rate : Option ℤ
  format_name : String
  tags : Option (List (String × String))
deriving DecidableEq, Repr

/-- Python `int(str)` on a decimal-digit string (an optional minus sign,
then at least one digit); `none` models the `ValueError` on anything else.
(Python also tolerates surrounding whitespace and a plus sign; no caller
here can produce those.) -/
def parseNatChars (l : List Char) : Option ℕ :=
  if l ≠ [] ∧ l.all (fun c => c.isDigit) then
    some (l.foldl (fun acc c => 10 * acc + (c.toNat - 48)) 0)
  else none

def parseIntChars (l : List Char) : Option ℤ :=
  match l with
  | '-' :: rest => (parseNatChars rest).map (fun n => -(n : ℤ))
  | _ => (parseNatChars l).map (fun n => (n : ℤ))

/-- song.py line 22: `int(self.stream_info['sample_fmt'].replace('s',''))` —
drop every 's' character, then parse as an integer (`none` models the
`ValueError` of Python's `int()` on a non-numeric remainder, e.g. "fltp"). -/
def parseSampleFmt (s : String) : Option ℤ :=
  parseIntChars (s.toList.filter (fun c => c ≠ 's'))

/-- song.py `Song.__init__`, given the probe result and the two loudness
readings that `get_volume_info` parsed out of the volumedetect pass
(`none` when the corresponding diagnostic line was absent). -/
def Song.init (filename : String) (pr : ProbeResult)
    (volMean volMax : Option ℚ) : Except PyErr Song := do
  let codec := pr.codec_name
  let format := pr.format_name
  let song_name := ((filename.toList.splitOn '.').headD []).asString
  let sample_rate := pr.sample_rate
  let bit_depth : Option ℤ ←
    if format ∉ LOSSLESS_FORMATS then pure none
    else
      match pr.sample_fmt with
      | none => throw (PyErr.keyError "sample_fmt")
      | some sf =>
        match parseSampleFmt sf with
        | none => throw (PyErr.valueError sf)
        | some d => pure (some d)
  let bit_rate : Option ℤ ←
    if format ∉ LOSSY_FORMATS then pure none
    else
      match pr.bit_rate with
      | none => throw (PyErr.keyError "bit_rate")
      | some r => pure (some r)
  let tags ←
    match pr.tags with
    | none => throw (PyErr.keyError "tags")
    | some t => pure t
  pure { song_name := song_name, codec := codec, format := format
       , sample_rate := sample_rate, bit_depth := bit_depth
       , bit_rate := bit_rate, tags := tags
       , volume_mean := volMean, volume_max := volMax }

/-- song.py `has_tag`: `tag_name in self.tags.keys()`. -/
def Song.has_tag (s : Song) (tag_name : String) : Bool :=
  (s.tags.lookup tag_name).isSome

/-! ## converter.py: convert_song -/

/-- The stream handed to the encode step: either the raw decoded stream or
the stream with ffmpeg's volume filter applied at the given dB offset. -/
inductive StreamSpec where
  | raw : StreamSpec
  | volumeFilter (offset_db : ℚ) : StreamSpec
deriving DecidableEq, Repr

/-- The `output_options` dictionary built by convert_song.  `sample_fmt`
is set only on the aiff branch, `audio_bitrate` only on the mp3 branch. -/
structure OutputOptions where
  acodec : String
  f : String
  ar : String
  write_id3v2 : ℤ
  metadata : List String
  sample_fmt : Option String
  audio_bitrate : Option ℤ
deriving DecidableEq, Repr

/-- One invocation of the external encode step
(`ffmpeg.output(...).overwrite_output().run()`). -/
structure EncodeCall where
  stream : StreamSpec
  outPath : String
  options : OutputOptions
  overwrite : Bool
deriving DecidableEq, Repr

/-- Outcome of convert_song: the no-op notice, an encode invocation, or a
Python runtime error (`NameError` when the format is in neither family so
`output_codec` is never bound; `KeyError`/`TypeError` when a field the code
reads was never populated — unreachable for probe-constructed songs). -/
inductive ConvertResult where
  | noConversion : ConvertResult
  | converted (call : EncodeCall) : ConvertResult
  | pyError : ConvertResult
deriving DecidableEq, Repr

/-- Comparison `b <= k` on a possibly-unpopulated field.  Python's `and`
short-circuits, so in convert_song the comparison is only ever reached when
the guarding membership test holds, which for probe-constructed songs forces
the field to be populated; the `none` branch is unreachable there. -/
def optLE (o : Option ℤ) (k : ℤ) : Prop :=
  o.elim False (fun b => b ≤ k)

instance (o : Option ℤ) (k : ℤ) : Decidable (optLE o k) :=
  match o with
  | none => inferInstanceAs (Decidable False)
  | some b => inferInstanceAs (Decidable (b ≤ k))

/-- converter.py lines 42-43: the condition under which no conversion is
needed (the code wraps it in `not (...)`). -/
def cdjCompliant (format : String) (bit_info : Option ℤ)
    (sample_rate : ℤ) (max_volume : ℚ) : Prop :=
  sample_rate ≤ 44100 ∧ max_volume = PEAK_DB ∧
    ((format ∈ (["aiff", "wav"] : List String) ∧ optLE bit_info 16) ∨
     (format ∈ (["mp3", "aac"] : List String) ∧ optLE bit_info 320))

instance (format : String) (bit_info : Option ℤ)
    (sample_rate : ℤ) (max_volume : ℚ) :
    Decidable (cdjCompliant format bit_info sample_rate max_volume) :=
  inferInstanceAs (Decidable (_ ∧ _ ∧ ((_ ∧ _) ∨ (_ ∧ _))))

/-- converter.py `convert_song`.  `song.get_max_volume()` indexes
`self.volume['max']`, raising `KeyError` when the reading is absent. -/
def convert_song (song : Song) (output_dir : String) : ConvertResult :=
  match song.volume_max with
  | none => ConvertResult.pyError
  | some input_max_volume =>
    let input_format := song.format
    let input_bit_info : Option ℤ :=
      if input_format ∈ LOSSLESS_FORMATS then song.bit_depth else song.bit_rate
    let input_sample_rate := song.sample_rate
    if cdjCompliant input_format input_bit_info input_sample_rate input_max_volume then
      ConvertResult.noConversion
    else
      let volume_offset := PEAK_DB - input_max_volume
      let input_stream :=
        if volume_offset = 0 then StreamSpec.raw
        else StreamSpec.volumeFilter volume_offset
      if input_format ∈ LOSSLESS_FORMATS then
        match input_bit_info with
        | none => ConvertResult.pyError
        | some d =>
          ConvertResult.converted
            { stream := input_stream
            , outPath := output_dir ++ "/" ++ song.song_name ++ ".aiff"
            , options :=
              { acodec := "pcm_s16le"
              , f := "aiff"
              , ar := toString (min input_sample_rate 44100)
              , write_id3v2 := 1
              , metadata := ["REKORDBOX_READY=1", "CONVERT_FOR_REKORDBOX=0"]
              , sample_fmt := some ("s" ++ toString (min d 16))
              , audio_bitrate := none }
            , overwrite := true }
      else if input_format ∈ LOSSY_FORMATS then
        match input_bit_info with
        | none => ConvertResult.pyError
        | some r =>
          ConvertResult.converted
            { stream := input_stream
            , outPath := output_dir ++ "/" ++ song.song_name ++ ".mp3"
            , options :=
              { acodec := "mp3"
              , f := "mp3"
              , ar := toString (min input_sample_rate 44100)
              , write_id3v2 := 1
              , metadata := ["REKORDBOX_READY=1", "CONVERT_FOR_REKORDBOX=0"]
              , sample_fmt := none
              , audio_bitrate := some (min r 320000) }
            , overwrite := true }
      else ConvertResult.pyError

/-! ## format_for_rekordbox.py: the main loop -/

/-- One pass of main's `for file in files` loop.  Each input is a path
paired with the outcome of `song.Song(full_path, file_name)`: `none` when
construction raised (probe failure).  There is no try/except in main, so a
raised exception propagates immediately: the result is `Except.error` with
the offending path and no later file is examined.  On the happy path the
result collects, in order, the songs `convert_song` is invoked on. -/
def main_loop (conversion_tag : Option String) :
    List (String × Option Song) → Except String (List Song)
  | [] => Except.ok []
  | (path, none) :: _ => Except.error path
  | (_, some cur_song) :: rest =>
    let here : List Song :=
      match conversion_tag with
      | some tag =>
        if cur_song.has_tag tag then
          if cur_song.tags.lookup tag = some "1" then [cur_song] else []
        else []
      | none => [cur_song]
    (main_loop conversion_tag rest).map (fun later => here ++ later)

/-! ## converter.py: getListOfFiles (file discovery)

Paths and file names are modelled as `List Char` so that the regex
`\.(aiff|flac|wav|mp3|ogg|aac|aif)$` (a suffix test) and `entry.find("._")`
(a prefix test) allow direct reasoning.  A directory tree is a finite
inductive value; `os.listdir` enumeration order is the children list. -/

/-- A string as a list of characters. -/
abbrev Str := List Char

/-- One filesystem entry: a plain file or a directory with its children in
`os.listdir` order. -/
inductive FSEntry where
  | file (name : Str) : FSEntry
  | dir (name : Str) (children : List FSEntry) : FSEntry

/-- The extension alternatives of converter.py's regex, in the order they
appear in the pattern: SUPPORTED_FORMATS joined with "|", plus "aif". -/
def extsCode : List Str :=
  ["aiff".toList, "flac".toList, "wav".toList, "mp3".toList, "ogg".toList,
   "aac".toList, "aif".toList]

/-- `re.search("\.(...)$", fullPath)`: the path ends with a dot followed by
one of the listed extensions. -/
def hasAudioExt (path : Str) : Prop :=
  ∃ e ∈ extsCode, ('.' :: e) <:+ path

instance (path : Str) : Decidable (hasAudioExt path) :=
  inferInstanceAs (Decidable (∃ e ∈ extsCode, ('.' :: e) <:+ path))

/-- `entry.find("._") == 0`: the name starts with "._". -/
def isDotUnderscore (name : Str) : Prop := "._".toList <+: name

instance (name : Str) : Decidable (isDotUnderscore name) :=
  inferInstanceAs (Decidable ("._".toList <+: name))

/-- The excluded output folder name. -/
def convertedDirName : Str := "Converted for Rekordbox".toList

/-- `dirName.split('/')[-1]` (used when the root path is not a directory). -/
def lastPathComponent (p : Str) : Str := (p.splitOn '/').getLastD []

/-- The loop body of getListOfFiles over the entries of a directory at path
`dirName`.  A child directory other than "Converted for Rekordbox" is
recursed into; every other entry (plain files, and a directory that IS
named "Converted for Rekordbox") goes through the extension regex on its
full path plus the "._" filter. -/
def listEntries : Str → List FSEntry → List (Str × Str)
  | _, [] => []
  | dirName, FSEntry.file n :: rest =>
    (if hasAudioExt (dirName ++ '/' :: n) ∧ ¬ isDotUnderscore n
     then [(dirName ++ '/' :: n, n)] else [])
    ++ listEntries dirName rest
  | dirName, FSEntry.dir n cs :: rest =>
    (if n ≠ convertedDirName
     then listEntries (dirName ++ '/' :: n) cs
     else if hasAudioExt (dirName ++ '/' :: n) ∧ ¬ isDotUnderscore n
     then [(dirName ++ '/' :: n, n)] else [])
    ++ listEntries dirName rest

/-- converter.py `getListOfFiles`: on a non-directory root, return the
single pair (path, last path component) with no extension check; on a
directory, iterate its entries. -/
def getListOfFiles (dirName : Str) (root : FSEntry) : List (Str × Str) :=
  match root with
  | FSEntry.file _ => [(dirName, lastPathComponent dirName)]
  | FSEntry.dir _ entries => listEntries dirName entries

/-- Modelled from the spec: the supported extension set
`aiff, aif, flac, wav, mp3, ogg, aac`, tested on the file NAME. -/
def extsSpec : List Str :=
  ["aiff".toList, "aif".toList, "flac".toList, "wav".toList, "mp3".toList,
   "ogg".toList, "aac".toList]

/-- Modelled from the spec: a file name carrying a supported audio
extension. -/
def audioName (name : Str) : Prop :=
  ∃ e ∈ extsSpec, ('.' :: e) <:+ name

instance (name : Str) : Decidable (audioName name) :=
  inferInstanceAs (Decidable (∃ e ∈ extsSpec, ('.' :: e) <:+ name))

/-- Modelled from the spec: the (full path, file name) pairs of the files
in a directory's entries whose name has a supported extension, skipping
every subtree rooted at a directory named "Converted for Rekordbox" and
every file name beginning with "._". -/
def audioFilesSpec : Str → List FSEntry → List (Str × Str)
  | _, [] => []
  | p, FSEntry.file n :: rest =>
    (if audioName n ∧ ¬ isDotUnderscore n then [(p ++ '/' :: n, n)] else [])
    ++ audioFilesSpec p rest
  | p, FSEntry.dir n cs :: rest =>
    (if n ≠ convertedDirName then audioFilesSpec (p ++ '/' :: n) cs else [])
    ++ audioFilesSpec p rest

/-! ## Concrete inputs used by witnesses and counterexamples -/

/-- The spec scenario: MP3, sample_rate 44100, bit_rate 128000 bps, peak
exactly -0.5 dB. -/
def c1Song : Song :=
  { song_name := "track", codec := "mp3", format := "mp3", sample_rate := 44100
  , bit_depth := none, bit_rate := some 128000, tags := []
  , volume_mean := none, volume_max := some (-0.5) }

/-- The spec scenario: FLAC, sample_rate 96000, bit_depth 24, peak -3.0 dB. -/
def c2Song : Song :=
  { song_name := "song", codec := "flac", format := "flac", sample_rate := 96000
  , bit_depth := some 24, bit_rate := none, tags := []
  , volume_mean := some (-11), volume_max := some (-3) }

/-- The encode call the FLAC scenario must produce: AIFF, 16-bit, 44100 Hz,
gain +2.5 dB. -/
def c2Call : EncodeCall :=
  { stream := StreamSpec.volumeFilter (5 / 2)
  , outPath := "outdir/song.aiff"
  , options :=
    { acodec := "pcm_s16le", f := "aiff", ar := "44100", write_id3v2 := 1
    , metadata := ["REKORDBOX_READY=1", "CONVERT_FOR_REKORDBOX=0"]
    , sample_fmt := some "s16", audio_bitrate := none }
  , overwrite := true }

/-- An OGG above every ceiling: 48000 Hz, 500000 bps, peak already -0.5. -/
def c3Song : Song :=
  { song_name := "loop", codec := "vorbis", format := "ogg", sample_rate := 48000
  , bit_depth := none, bit_rate := some 500000, tags := []
  , volume_mean := none, volume_max := some (-0.5) }

def c3Call : EncodeCall :=
  { stream := StreamSpec.raw
  , outPath := "odir/loop.mp3"
  , options :=
    { acodec := "mp3", f := "mp3", ar := "44100", write_id3v2 := 1
    , metadata := ["REKORDBOX_READY=1", "CONVERT_FOR_REKORDBOX=0"]
    , sample_fmt := none, audio_bitrate := some 320000 }
  , overwrite := true }

/-- A 24-bit WAV at peak -6.0 dB: converted, with a +5.5 dB gain filter. -/
def c4Song : Song :=
  { song_name := "take", codec := "pcm_s24le", format := "wav", sample_rate := 44100
  , bit_depth := some 24, bit_rate := none, tags := []
  , volume_mean := none, volume_max := some (-6) }

def c4Call : EncodeCall :=
  { stream := StreamSpec.volumeFilter (11 / 2)
  , outPath := "d/take.aiff"
  , options :=
    { acodec := "pcm_s16le", f := "aiff", ar := "44100", write_id3v2 := 1
    , metadata := ["REKORDBOX_READY=1", "CONVERT_FOR_REKORDBOX=0"]
    , sample_fmt := some "s16", audio_bitrate := none }
  , overwrite := true }

/-- An MP3 needing only resampling: 48000 Hz, 320000 bps, peak -0.5. -/
def c7Song : Song :=
  { song_name := "tune", codec := "mp3", format := "mp3", sample_rate := 48000
  , bit_depth := none, bit_rate := some 320000, tags := [("GENRE", "house")]
  , volume_mean := none, volume_max := some (-0.5) }

def c7Call : EncodeCall :=
  { stream := StreamSpec.raw
  , outPath := "o/tune.mp3"
  , options :=
    { acodec := "mp3", f := "mp3", ar := "44100", write_id3v2 := 1
    , metadata := ["REKORDBOX_READY=1", "CONVERT_FOR_REKORDBOX=0"]
    , sample_fmt := none, audio_bitrate := some 320000 }
  , overwrite := true }

/-- A song whose construction succeeded, following a file whose probe
failed, in the C8 batch. -/
def c8GoodSong : Song :=
  { song_name := "good", codec := "flac", format := "flac", sample_rate := 44100
  , bit_depth := some 16, bit_rate := none, tags := []
  , volume_mean := none, volume_max := some (-1) }

/-- ffprobe output for an .m4a/.aac file: the container format name is the
mov/mp4 family string, which is in neither LOSSLESS_FORMATS nor
LOSSY_FORMATS. -/
def c9Probe : ProbeResult :=
  { codec_name := "aac", sample_rate := 44100, sample_fmt := some "fltp"
  , bit_rate := some 125588, format_name := "mov,mp4,m4a,3gp,3g2,mj2"
  , tags := some [] }

/-- The Song that `Song.init` builds from `c9Probe`: both bit_depth and
bit_rate are unpopulated. -/
def c9Song : Song :=
  { song_name := "memories", codec := "aac", format := "mov,mp4,m4a,3gp,3g2,mj2"
  , sample_rate := 44100, bit_depth := none, bit_rate := none, tags := []
  , volume_mean := none, volume_max := some (-3) }

/-- A well-formed FLAC probe, for instantiating the amended C9 statement. -/
def c9FlacProbe : ProbeResult :=
  { codec_name := "flac", sample_rate := 44100, sample_fmt := some "s16"
  , bit_rate := none, format_name := "flac", tags := some [("VOCALS", "1")] }

/-- The Song built from `c9FlacProbe`. -/
def c9FlacSong : Song :=
  { song_name := "test_song", codec := "flac", format := "flac"
  , sample_rate := 44100, bit_depth := some 16, bit_rate := none
  , tags := [("VOCALS", "1")], volume_mean := none, volume_max := some (-1) }

/-- A WAV probe whose stream metadata is fine but whose format section has
no tags entry at all. -/
def c10Probe : ProbeResult :=
  { codec_name := "pcm_s16le", sample_rate := 44100, sample_fmt := some "s16"
  , bit_rate := none, format_name := "wav", tags := none }

/-- The stream-section fields `Song.__init__` reads before the tags lookup
are well formed: for a lossless format, `sample_fmt` is present and its
's'-stripped remainder parses as an integer; for a lossy format, `bit_rate`
is present. -/
def streamFieldsOk (pr : ProbeResult) : Prop :=
  (pr.format_name ∈ LOSSLESS_FORMATS →
    (pr.sample_fmt.bind parseSampleFmt).isSome = true) ∧
  (pr.format_name ∈ LOSSY_FORMATS → pr.bit_rate.isSome = true)

instance (pr : ProbeResult) : Decidable (streamFieldsOk pr) :=
  inferInstanceAs (Decidable (_ ∧ _))

/-- Modelled from the spec: the no-conversion condition as §4.3 states it —
sample rate at most 44100, measured peak exactly -0.5 dBFS, and (lossless
family with bit depth at most 16) or (lossy family with bit rate at most
320000 bps).  Stated for comparison with the code's `cdjCompliant`. -/
def specNoConversionNeeded (s : Song) : Prop :=
  s.sample_rate ≤ 44100 ∧ s.volume_max = some PEAK_DB ∧
    ((s.format ∈ LOSSLESS_FORMATS ∧ optLE s.bit_depth 16) ∨
     (s.format ∈ LOSSY_FORMATS ∧ optLE s.bit_rate 320000))

/-! ## Helper lemmas (shared) -/

theorem lossy_not_lossless (f : String) (h : f ∈ LOSSY_FORMATS) :
    f ∉ LOSSLESS_FORMATS := by
  simp only [LOSSY_FORMATS, List.mem_cons, List.not_mem_nil, or_false] at h
  rcases h with rfl | rfl | rfl <;> decide

theorem not_both_families (f : String)
    (h1 : f ∈ LOSSLESS_FORMATS) (h2 : f ∈ LOSSY_FORMATS) : False := by
  simp only [LOSSLESS_FORMATS, List.mem_cons, List.not_mem_nil, or_false] at h1
  rcases h1 with rfl | rfl | rfl <;> simp [LOSSY_FORMATS] at h2

/-- Evaluation of the lossless branch of convert_song. -/
theorem convert_song_lossless_eq (s : Song) (dir : String) (bd : ℤ) (v : ℚ)
    (hf : s.format ∈ LOSSLESS_FORMATS)
    (hb : s.bit_depth = some bd)
    (hv : s.volume_max = some v)
    (hskip : ¬ cdjCompliant s.format (some bd) s.sample_rate v) :
    convert_song s dir = ConvertResult.converted
      { stream := if PEAK_DB - v = 0 then StreamSpec.raw
                  else StreamSpec.volumeFilter (PEAK_DB - v)
      , outPath := dir ++ "/" ++ s.song_name ++ ".aiff"
      , options :=
        { acodec := "pcm_s16le", f := "aiff"
        , ar := toString (min s.sample_rate 44100)
        , write_id3v2 := 1
        , metadata := ["REKORDBOX_READY=1", "CONVERT_FOR_REKORDBOX=0"]
        , sample_fmt := some ("s" ++ toString (min bd 16))
        , audio_bitrate := none }
      , overwrite := true } := by
  simp only [convert_song, hv, hb, hf, if_true, hskip, if_false]

/-- Evaluation of the lossy branch of convert_song. -/
theorem convert_song_lossy_eq (s : Song) (dir : String) (br : ℤ) (v : ℚ)
    (hf : s.format ∈ LOSSY_FORMATS)
    (hb : s.bit_rate = some br)
    (hv : s.volume_max = some v)
    (hskip : ¬ cdjCompliant s.format (some br) s.sample_rate v) :
    convert_song s dir = ConvertResult.converted
      { stream := if PEAK_DB - v = 0 then StreamSpec.raw
                  else StreamSpec.volumeFilter (PEAK_DB - v)
      , outPath := dir ++ "/" ++ s.song_name ++ ".mp3"
      , options :=
        { acodec := "mp3", f := "mp3"
        , ar := toString (min s.sample_rate 44100)
        , write_id3v2 := 1
        , metadata := ["REKORDBOX_READY=1", "CONVERT_FOR_REKORDBOX=0"]
        , sample_fmt := none
        , audio_bitrate := some (min br 320000) }
      , overwrite := true } := by
  have hnl : s.format ∉ LOSSLESS_FORMATS := lossy_not_lossless s.format hf
  simp only [convert_song, hv, hb, hf, hnl, if_true, if_false, hskip]

/-! ## Helper lemmas for file discovery -/

theorem suffix_of_suffix_length_le {t l1 l2 : Str}
    (h1 : l1 <:+ t) (h2 : l2 <:+ t) (hle : l1.length ≤ l2.length) :
    l1 <:+ l2 := by
  rw [List.suffix_iff_eq_drop] at h1 h2
  have hb : l2.length ≤ t.length := by
    rw [h2]; simp
  calc l1 = t.drop (t.length - l1.length) := h1
    _ = (t.drop (t.length - l2.length)).drop
          ((t.length - l1.length) - (t.length - l2.length)) := by
        rw [List.drop_drop]
        congr 1
        omega
    _ = l2.drop ((t.length - l1.length) - (t.length - l2.length)) := by rw [← h2]
    _ <:+ l2 := List.drop_suffix _ _

theorem suffix_append_cons_iff (d n suf : Str) (h : ('/' : Char) ∉ suf) :
    suf <:+ (d ++ '/' :: n) ↔ suf <:+ n := by
  have hsplit : d ++ '/' :: n = (d ++ ['/']) ++ n := by simp
  constructor
  · intro hs
    by_cases hlen : suf.length ≤ n.length
    · have hn : n <:+ d ++ '/' :: n := by
        rw [hsplit]; exact List.suffix_append _ _
      exact suffix_of_suffix_length_le hs hn hlen
    · exfalso
      have hsn : ('/' :: n) <:+ d ++ '/' :: n := List.suffix_append d ('/' :: n)
      have hss : ('/' :: n) <:+ suf :=
        suffix_of_suffix_length_le hsn hs (by simp; omega)
      exact h (hss.mem (by simp))
  · intro hs
    refine hs.trans ?_
    rw [hsplit]
    exact List.suffix_append _ _

theorem extsCode_no_slash (e : Str) (he : e ∈ extsCode) :
    ('/' : Char) ∉ '.' :: e := by
  simp only [extsCode, List.mem_cons, List.not_mem_nil, or_false] at he
  rcases he with rfl | rfl | rfl | rfl | rfl | rfl | rfl <;> decide

theorem hasAudioExt_append_cons (p n : Str) :
    hasAudioExt (p ++ '/' :: n) ↔ hasAudioExt n := by
  unfold hasAudioExt
  constructor <;> rintro ⟨e, he, hs⟩ <;> refine ⟨e, he, ?_⟩
  · exact (suffix_append_cons_iff p n ('.' :: e) (extsCode_no_slash e he)).mp hs
  · exact (suffix_append_cons_iff p n ('.' :: e) (extsCode_no_slash e he)).mpr hs

theorem hasAudioExt_iff_audioName (n : Str) : hasAudioExt n ↔ audioName n := by
  unfold hasAudioExt audioName
  constructor <;> rintro ⟨e, he, hs⟩ <;> refine ⟨e, ?_, hs⟩
  · simp only [extsCode, List.mem_cons, List.not_mem_nil, or_false] at he
    rcases he with rfl | rfl | rfl | rfl | rfl | rfl | rfl <;> decide
  · simp only [extsSpec, List.mem_cons, List.not_mem_nil, or_false] at he
    rcases he with rfl | rfl | rfl | rfl | rfl | rfl | rfl <;> decide

theorem listEntries_eq_spec (p : Str) (l : List FSEntry) :
    listEntries p l = audioFilesSpec p l := by
  induction p, l using listEntries.induct with
  | case1 p => simp [listEntries, audioFilesSpec]
  | case2 p n rest ih =>
    simp only [listEntries, audioFilesSpec, ih]
    have hiff := and_congr_left'
      ((hasAudioExt_append_cons p n).trans (hasAudioExt_iff_audioName n))
      (c := ¬ isDotUnderscore n)
    rw [if_congr hiff rfl rfl]
  | case3 p n cs rest ih1 ih2 =>
    simp only [listEntries, audioFilesSpec, ih1, ih2]
    by_cases hconv : n = convertedDirName
    · subst hconv
      simp only [if_neg (by simp : ¬ (convertedDirName ≠ convertedDirName))]
      have hext : ¬ (hasAudioExt (p ++ '/' :: convertedDirName) ∧
          ¬ isDotUnderscore convertedDirName) := by
        intro hcon
        have := (hasAudioExt_append_cons p convertedDirName).mp hcon.1
        have h2 := (hasAudioExt_iff_audioName convertedDirName).mp this
        revert h2
        decide
      rw [if_neg hext]
    · rw [if_pos hconv, if_pos hconv]

/-! ## Claims -/

/-- Claim C1 (code_bug): the spec's no-conversion condition holds of the
MP3 scenario (sample_rate 44100, bit_rate 128000 bps, peak exactly
-0.5 dB), yet convert_song does not take the no-op path: converter.py
line 43 compares the bps bit rate against 320 instead of 320000, so the
song is re-encoded. -/
theorem c1_skip_divergence :
    specNoConversionNeeded c1Song ∧
    convert_song c1Song "out" ≠ ConvertResult.noConversion := by
  constructor
  · refine ⟨by norm_num [c1Song], by norm_num [c1Song, PEAK_DB], Or.inr ⟨?_, ?_⟩⟩
    · simp [c1Song, LOSSY_FORMATS]
    · norm_num [c1Song, optLE]
  · have h : ¬ cdjCompliant "mp3" (some 128000) 44100 (-0.5) := by
      simp [cdjCompliant, optLE]
    simp [convert_song, c1Song, LOSSLESS_FORMATS, LOSSY_FORMATS, h]

/-- Claim C2: a lossless-format song that fails the skip test is encoded
as AIFF with bit depth min(input, 16), sample rate min(input, 44100) and
codec pcm_s16le (and the stream carries the loudness offset when it is
nonzero). -/
theorem c2_lossless_target (s : Song) (dir : String) (bd : ℤ) (v : ℚ)
    (hf : s.format ∈ LOSSLESS_FORMATS)
    (hb : s.bit_depth = some bd)
    (hv : s.volume_max = some v)
    (hskip : ¬ cdjCompliant s.format (some bd) s.sample_rate v) :
    convert_song s dir = ConvertResult.converted
      { stream := if PEAK_DB - v = 0 then StreamSpec.raw
                  else StreamSpec.volumeFilter (PEAK_DB - v)
      , outPath := dir ++ "/" ++ s.song_name ++ ".aiff"
      , options :=
        { acodec := "pcm_s16le", f := "aiff"
        , ar := toString (min s.sample_rate 44100)
        , write_id3v2 := 1
        , metadata := ["REKORDBOX_READY=1", "CONVERT_FOR_REKORDBOX=0"]
        , sample_fmt := some ("s" ++ toString (min bd 16))
        , audio_bitrate := none }
      , overwrite := true } :=
  convert_song_lossless_eq s dir bd v hf hb hv hskip

/-- Witness for C2, the spec's FLAC scenario: sample_rate 96000, bit_depth
24, peak -3.0 dB gives AIFF, 44100 Hz, s16, gain +2.5 dB. -/
theorem c2_lossless_target_witness :
    c2Song.format ∈ LOSSLESS_FORMATS ∧
    ¬ cdjCompliant c2Song.format (some 24) c2Song.sample_rate (-3) ∧
    convert_song c2Song "outdir" = ConvertResult.converted c2Call := by
  have hf : c2Song.format ∈ LOSSLESS_FORMATS := by simp [c2Song, LOSSLESS_FORMATS]
  have hskip : ¬ cdjCompliant c2Song.format (some 24) c2Song.sample_rate (-3) := by
    norm_num [cdjCompliant, c2Song]
  refine ⟨hf, hskip, ?_⟩
  have h := c2_lossless_target c2Song "outdir" 24 (-3) hf rfl rfl hskip
  refine h.trans ?_
  have hne : ¬ (PEAK_DB - (-3 : ℚ) = 0) := by norm_num [PEAK_DB]
  rw [if_neg hne]
  have hoff : PEAK_DB - (-3 : ℚ) = 5 / 2 := by norm_num [PEAK_DB]
  rw [hoff]
  rfl

/-- Claim C3: a lossy-format song that fails the skip test is encoded as
MP3 with bit rate min(input, 320000) and sample rate min(input, 44100), so
the output bit rate is at most 320000 and the output sample rate at most
44100. -/
theorem c3_lossy_target (s : Song) (dir : String) (br : ℤ) (v : ℚ)
    (hf : s.format ∈ LOSSY_FORMATS)
    (hb : s.bit_rate = some br)
    (hv : s.volume_max = some v)
    (hskip : ¬ cdjCompliant s.format (some br) s.sample_rate v) :
    convert_song s dir = ConvertResult.converted
      { stream := if PEAK_DB - v = 0 then StreamSpec.raw
                  else StreamSpec.volumeFilter (PEAK_DB - v)
      , outPath := dir ++ "/" ++ s.song_name ++ ".mp3"
      , options :=
        { acodec := "mp3", f := "mp3"
        , ar := toString (min s.sample_rate 44100)
        , write_id3v2 := 1
        , metadata := ["REKORDBOX_READY=1", "CONVERT_FOR_REKORDBOX=0"]
        , sample_fmt := none
        , audio_bitrate := some (min br 320000) }
      , overwrite := true } ∧
    min br 320000 ≤ 320000 ∧ min s.sample_rate 44100 ≤ 44100 :=
  ⟨convert_song_lossy_eq s dir br v hf hb hv hskip,
   min_le_right _ _, min_le_right _ _⟩

/-- Witness for C3: an OGG at 48000 Hz, 500000 bps, peak -0.5 is encoded
as MP3 at 44100 Hz with bit rate clamped to 320000. -/
theorem c3_lossy_target_witness :
    c3Song.format ∈ LOSSY_FORMATS ∧
    ¬ cdjCompliant c3Song.format (some 500000) c3Song.sample_rate (-0.5) ∧
    convert_song c3Song "odir" = ConvertResult.converted c3Call ∧
    min (500000 : ℤ) 320000 ≤ 320000 ∧ min c3Song.sample_rate 44100 ≤ 44100 := by
  have hf : c3Song.format ∈ LOSSY_FORMATS := by simp [c3Song, LOSSY_FORMATS]
  have hskip : ¬ cdjCompliant c3Song.format (some 500000) c3Song.sample_rate (-0.5) := by
    norm_num [cdjCompliant, c3Song]
  have h := c3_lossy_target c3Song "odir" 500000 (-0.5) hf rfl rfl hskip
  refine ⟨hf, hskip, h.1.trans ?_, h.2⟩
  have h0 : PEAK_DB - (-0.5 : ℚ) = 0 := by norm_num [PEAK_DB]
  rw [if_pos h0]
  rfl

/-- Claim C4: for every song convert_song actually encodes, the loudness
offset is PEAK_DB minus the measured peak (so offset plus peak is exactly
-0.5), the stream is raw exactly when the offset is zero, and otherwise the
volume filter carries exactly that offset. -/
theorem c4_loudness_offset (s : Song) (dir : String) (v : ℚ) (call : EncodeCall)
    (hv : s.volume_max = some v)
    (hc : convert_song s dir = ConvertResult.converted call) :
    (PEAK_DB - v) + v = PEAK_DB ∧
    (call.stream = StreamSpec.raw ↔ PEAK_DB - v = 0) ∧
    (PEAK_DB - v ≠ 0 → call.stream = StreamSpec.volumeFilter (PEAK_DB - v)) := by
  refine ⟨by ring, ?_⟩
  simp only [convert_song, hv] at hc
  repeat' split at hc
  all_goals cases hc
  all_goals simp_all

/-- Witness for C4: a 24-bit WAV at peak -6.0 dB is encoded with a
volume-filter stream at offset +5.5 dB, and the offset plus the peak is
-0.5. -/
theorem c4_loudness_offset_witness :
    (PEAK_DB - (-6 : ℚ)) + (-6) = PEAK_DB ∧
    (c4Call.stream = StreamSpec.raw ↔ PEAK_DB - (-6 : ℚ) = 0) ∧
    (PEAK_DB - (-6 : ℚ) ≠ 0 →
      c4Call.stream = StreamSpec.volumeFilter (PEAK_DB - (-6))) :=
  c4_loudness_offset c4Song "d" (-6) c4Call rfl (by
    have hf : c4Song.format ∈ LOSSLESS_FORMATS := by
      simp [c4Song, LOSSLESS_FORMATS]
    have hskip : ¬ cdjCompliant c4Song.format (some 24) c4Song.sample_rate (-6) := by
      norm_num [cdjCompliant, c4Song, PEAK_DB, optLE]
    have h := convert_song_lossless_eq c4Song "d" 24 (-6) hf rfl rfl hskip
    refine h.trans ?_
    have hne : ¬ (PEAK_DB - (-6 : ℚ) = 0) := by norm_num [PEAK_DB]
    rw [if_neg hne]
    have hoff : PEAK_DB - (-6 : ℚ) = 11 / 2 := by norm_num [PEAK_DB]
    rw [hoff]
    rfl)

/-- Claim C6: with a conversion tag, the main loop invokes convert_song
exactly on the songs whose tag mapping holds that key with value "1"
(missing tag or any other value: untouched); with no tag, on every song. -/
theorem c6_tag_filter (tag : String) (songs : List Song) :
    main_loop (some tag) (songs.map (fun s => ("", some s))) =
      Except.ok (songs.filter (fun s => s.tags.lookup tag == some "1")) ∧
    main_loop none (songs.map (fun s => ("", some s))) = Except.ok songs := by
  constructor
  · induction songs with
    | nil => rfl
    | cons s rest ih =>
      simp only [List.map_cons, main_loop, ih, Except.map, List.filter_cons]
      rcases h : s.tags.lookup tag with _ | v
      · simp [Song.has_tag, h]
      · by_cases h1 : v = "1"
        · subst h1
          simp [Song.has_tag, h]
        · simp [Song.has_tag, h, h1]
  · induction songs with
    | nil => rfl
    | cons s rest ih =>
      simp [List.map_cons, main_loop, ih, Except.map]

/-- Claim C7: every encode invocation convert_song emits carries exactly
the metadata tags REKORDBOX_READY=1 and CONVERT_FOR_REKORDBOX=0, on both
format branches. -/
theorem c7_metadata_tags (s : Song) (dir : String) (call : EncodeCall)
    (hc : convert_song s dir = ConvertResult.converted call) :
    call.options.metadata = ["REKORDBOX_READY=1", "CONVERT_FOR_REKORDBOX=0"] := by
  simp only [convert_song] at hc
  repeat' split at hc
  all_goals cases hc
  all_goals rfl

/-- Witness for C7: the MP3 needing only resampling is encoded with the
two metadata tags. -/
theorem c7_metadata_tags_witness :
    c7Call.options.metadata = ["REKORDBOX_READY=1", "CONVERT_FOR_REKORDBOX=0"] :=
  c7_metadata_tags c7Song "o" c7Call (by
    have hf : c7Song.format ∈ LOSSY_FORMATS := by simp [c7Song, LOSSY_FORMATS]
    have hskip : ¬ cdjCompliant c7Song.format (some 320000) c7Song.sample_rate (-0.5) := by
      norm_num [cdjCompliant, c7Song]
    have h := convert_song_lossy_eq c7Song "o" 320000 (-0.5) hf rfl rfl hskip
    refine h.trans ?_
    have h0 : PEAK_DB - (-0.5 : ℚ) = 0 := by norm_num [PEAK_DB]
    rw [if_pos h0]
    rfl)

/-- Counterexample for C8: a batch whose first file fails to probe aborts
with that path; the following good file is never reached, refuting "the
error is caught ... and the main loop continues to the next file". -/
theorem c8_not_isolated_cex :
    main_loop none [("bad.mp3", none), ("good.flac", some c8GoodSong)] =
      Except.error "bad.mp3" := rfl

/-- Claim C8 as amended: per-file errors are NOT isolated — main has no
try/except, so the first file whose Song construction raises aborts the
whole batch with that path, regardless of how many files preceded it or
remain after it. -/
theorem c8_error_aborts_batch (ct : Option String) (good : List (String × Song))
    (badPath : String) (rest : List (String × Option Song)) :
    main_loop ct (good.map (fun g => (g.1, some g.2)) ++ (badPath, none) :: rest) =
      Except.error badPath := by
  induction good with
  | nil => rfl
  | cons g gs ih => simp [main_loop, ih, Except.map]

/-- Counterexample for C9: probing an m4a/aac file reports the mov/mp4
container family string, which is in neither format list, so Song
construction succeeds with BOTH bit_depth and bit_rate unpopulated —
"exactly one populated" fails for this probe-reportable format value. -/
theorem c9_both_unset_cex :
    Song.init "memories.m4a" c9Probe none (some (-3)) = Except.ok c9Song ∧
    c9Song.bit_depth = none ∧ c9Song.bit_rate = none := ⟨rfl, rfl, rfl⟩

/-- Claim C9 as amended: for every successfully constructed Song, bit
depth is populated iff the format is in the lossless list, bit rate iff in
the lossy list, and never both; for format values outside both lists
neither is populated. -/
theorem c9_family_fields (filename : String) (pr : ProbeResult)
    (vm vx : Option ℚ) (s : Song)
    (h : Song.init filename pr vm vx = Except.ok s) :
    (s.bit_depth.isSome = true ↔ s.format ∈ LOSSLESS_FORMATS) ∧
    (s.bit_rate.isSome = true ↔ s.format ∈ LOSSY_FORMATS) ∧
    ¬ (s.bit_depth.isSome = true ∧ s.bit_rate.isSome = true) := by
  simp only [Song.init, bind, Except.bind, pure, Except.pure] at h
  repeat' split at h
  all_goals cases h
  all_goals simp_all
  all_goals exact (not_both_families _ (by assumption) (by assumption)).elim

/-- Witness for C9 (amended): the FLAC probe yields a Song with bit_depth
populated, bit_rate not. -/
theorem c9_family_fields_witness :
    (c9FlacSong.bit_depth.isSome = true ↔ c9FlacSong.format ∈ LOSSLESS_FORMATS) ∧
    (c9FlacSong.bit_rate.isSome = true ↔ c9FlacSong.format ∈ LOSSY_FORMATS) ∧
    ¬ (c9FlacSong.bit_depth.isSome = true ∧ c9FlacSong.bit_rate.isSome = true) :=
  c9_family_fields "test_song.flac" c9FlacProbe none (some (-1)) c9FlacSong rfl

/-- Claim C10: Song construction indexes the probe's tags mapping
unconditionally — when the stream-section fields are well formed and the
format section has no tags entry, construction raises KeyError "tags" (no
Song, no default empty mapping); and every successfully constructed Song
carries the probe's tag mapping verbatim. -/
theorem c10_tags_unconditional (filename : String) (pr : ProbeResult)
    (vm vx : Option ℚ) (hok : streamFieldsOk pr) :
    (pr.tags = none →
      Song.init filename pr vm vx = Except.error (PyErr.keyError "tags")) ∧
    (∀ s, Song.init filename pr vm vx = Except.ok s → pr.tags = some s.tags) := by
  obtain ⟨h1, h2⟩ := hok
  constructor
  · intro ht
    simp only [Song.init, bind, Except.bind, pure, Except.pure]
    repeat' split
    all_goals simp_all
  · intro s hs
    simp only [Song.init, bind, Except.bind, pure, Except.pure] at hs
    repeat' split at hs
    all_goals cases hs
    all_goals simp_all

/-- Witness for C10: a WAV probe with sound stream fields but no tags
entry makes Song.init raise KeyError "tags". -/
theorem c10_tags_unconditional_witness :
    Song.init "ambient.wav" c10Probe none (some (-1)) =
      Except.error (PyErr.keyError "tags") :=
  (c10_tags_unconditional "ambient.wav" c10Probe none (some (-1))
    (by constructor <;> decide)).1 rfl

/-- Claim C5: on a directory-tree root, getListOfFiles returns exactly the
(full path, file name) pairs of the files whose name carries an extension
in aiff, aif, flac, wav, mp3, ogg, aac, excluding every file under any
subdirectory named "Converted for Rekordbox" (at any depth) and every file
whose name begins with "._" — stated as equality with the spec-modelled
walker audioFilesSpec. -/
theorem c5_discovery (dirName rootName : Str) (entries : List FSEntry) :
    getListOfFiles dirName (FSEntry.dir rootName entries) =
      audioFilesSpec dirName entries :=
  listEntries_eq_spec dirName entries

end Rekordbox
